import Mathlib

/-!
Verification development for the `nyc-open-data` 311 fetcher
(`src/nyc_311_fetcher.py`).

The pipeline is shallowly embedded as follows.

* Timezone-aware datetimes are pairs of an absolute instant (microseconds
  since the Unix epoch, as an `Int`) and a timezone tag.  `astimezone`
  changes the tag and keeps the instant, exactly as Python aware
  datetimes behave.
* A pandas `DataFrame` is a column-name list together with a list of
  rows, each row a list of cell values in column order.  A cell is a
  missing marker (`NaN`/`NaT`), a raw string, or a timezone-aware
  timestamp (`None` inside `dt` plays the role of `NaT`).
* In-place mutation of a caller-supplied frame is made explicit:
  `clean_and_filter` returns both the final state of the object the
  caller passed in (first component) and the value returned by the
  Python function (second component).
* Fallible steps (`KeyError` on a missing column, `raise_for_status`,
  network errors, filesystem errors) return `Except RunErr`.
* The HTTP world is a function from requests to responses; the single
  request built by `fetch_311_data` is also returned as a trace so that
  "exactly one GET with exactly these parameters" is a statement about
  the embedding, not an assumption.
-/

set_option autoImplicit false

namespace Nyc311

/-- Timezone tags occurring in the program: `pytz.utc` and
`pytz.timezone("America/New_York")`. -/
inductive Tz where
  | utc : Tz
  | nyc : Tz
deriving DecidableEq, Repr

/-- A timezone-aware Python datetime: an absolute instant in microseconds
since the Unix epoch together with its timezone tag. -/
structure Datetime where
  instant : Int
  tz : Tz
deriving DecidableEq, Repr

/-- A cell of a pandas data frame: missing (`NaN`), a raw JSON string, or a
timezone-aware timestamp where `dt none _` is `NaT`. -/
inductive CellVal where
  | na : CellVal
  | str : String → CellVal
  | dt : Option Int → Tz → CellVal
deriving DecidableEq, Repr

/-- A pandas `DataFrame`: column names plus rows of cells in column order. -/
structure DataFrame where
  cols : List String
  rows : List (List CellVal)
deriving DecidableEq, Repr

/-- Embedding of the pandas `df.empty` property: true when either axis has
length zero. -/
def DataFrame.empty (df : DataFrame) : Bool :=
  df.rows.isEmpty || df.cols.isEmpty

/-- A data frame is rectangular: every row has one cell per column.  Frames
built by `pd.DataFrame` always satisfy this. -/
def DataFrame.Rect (df : DataFrame) : Prop :=
  ∀ r ∈ df.rows, r.length = df.cols.length

instance (df : DataFrame) : Decidable df.Rect := by
  unfold DataFrame.Rect; infer_instance

/-- Cell of row `r` at column position `i`; out-of-range reads give the
missing marker (rectangular frames never read out of range). -/
def cellAt (r : List CellVal) (i : Nat) : CellVal :=
  r.getD i CellVal.na

theorem cellAt_of_len_le (r : List CellVal) (i : Nat) (h : r.length ≤ i) :
    cellAt r i = CellVal.na := by
  induction r generalizing i with
  | nil => rfl
  | cons a r ih =>
    cases i with
    | zero => simp at h
    | succ n =>
      simp only [cellAt, List.getD_cons_succ]
      exact ih n (by simpa using h)

theorem cellAt_set_self (r : List CellVal) (i : Nat) (v : CellVal)
    (h : i < r.length) : cellAt (r.set i v) i = v := by
  induction r generalizing i with
  | nil => simp at h
  | cons a r ih =>
    cases i with
    | zero => rfl
    | succ n =>
      simp only [List.set, cellAt, List.getD_cons_succ]
      exact ih n (by simpa using h)

theorem set_of_len_le (r : List CellVal) (i : Nat) (v : CellVal)
    (h : r.length ≤ i) : r.set i v = r := by
  induction r generalizing i with
  | nil => rfl
  | cons a r ih =>
    cases i with
    | zero => simp at h
    | succ n => simp [List.set, ih n (by simpa using h)]

theorem cellAt_set_ne (r : List CellVal) (i j : Nat) (v : CellVal)
    (h : j ≠ i) : cellAt (r.set j v) i = cellAt r i := by
  induction r generalizing i j with
  | nil => rfl
  | cons a r ih =>
    cases j with
    | zero =>
      cases i with
      | zero => exact absurd rfl h
      | succ n => rfl
    | succ m =>
      cases i with
      | zero => rfl
      | succ n =>
        simp only [List.set, cellAt, List.getD_cons_succ]
        exact ih n m (fun hh => h (by simpa using congrArg Nat.succ hh))

theorem cellAt_append_left (r s : List CellVal) (i : Nat)
    (h : i < r.length) : cellAt (r ++ s) i = cellAt r i := by
  induction r generalizing i with
  | nil => simp at h
  | cons a r ih =>
    cases i with
    | zero => rfl
    | succ n =>
      simp only [List.cons_append, cellAt, List.getD_cons_succ]
      exact ih n (by simpa using h)

theorem cellAt_append_self (r : List CellVal) (v : CellVal) :
    cellAt (r ++ [v]) r.length = v := by
  induction r with
  | nil => rfl
  | cons a r ih => simp [cellAt, ih]

/-- Position of column `k` in a column-name list (the lookup pandas performs
for `df["k"]`); `none` means a `KeyError`. -/
def findColIdx (k : String) : List String → Option Nat
  | [] => none
  | c :: cs => if c = k then some 0 else (findColIdx k cs).map (fun n => n + 1)

theorem findColIdx_getD (k : String) (l : List String) (i : Nat)
    (h : findColIdx k l = some i) : l.getD i "" = k := by
  induction l generalizing i with
  | nil => simp [findColIdx] at h
  | cons c cs ih =>
    by_cases hc : c = k
    · simp only [findColIdx, hc, if_pos rfl] at h
      cases h
      simpa using hc
    · simp only [findColIdx, if_neg hc, Option.map_eq_some'] at h
      obtain ⟨n, hn, rfl⟩ := h
      simpa using ih n hn

theorem findColIdx_lt (k : String) (l : List String) (i : Nat)
    (h : findColIdx k l = some i) : i < l.length := by
  induction l generalizing i with
  | nil => simp [findColIdx] at h
  | cons c cs ih =>
    by_cases hc : c = k
    · simp only [findColIdx, hc, if_pos rfl] at h
      cases h
      simp
    · simp only [findColIdx, if_neg hc, Option.map_eq_some'] at h
      obtain ⟨n, hn, rfl⟩ := h
      simpa using ih n hn

theorem findColIdx_append_some (k : String) (l l2 : List String) (i : Nat)
    (h : findColIdx k l = some i) : findColIdx k (l ++ l2) = some i := by
  induction l generalizing i with
  | nil => simp [findColIdx] at h
  | cons c cs ih =>
    by_cases hc : c = k
    · simp only [findColIdx, hc, if_pos rfl] at h ⊢
      exact h
    · simp only [findColIdx, if_neg hc, Option.map_eq_some'] at h ⊢
      obtain ⟨n, hn, rfl⟩ := h
      exact ⟨n, ih n hn, rfl⟩

theorem findColIdx_append_none (k : String) (l : List String)
    (h : findColIdx k l = none) : findColIdx k (l ++ [k]) = some l.length := by
  induction l with
  | nil => simp [findColIdx]
  | cons c cs ih =>
    by_cases hc : c = k
    · simp [findColIdx, hc] at h
    · simp only [findColIdx, if_neg hc, Option.map_eq_none'] at h
      simp [findColIdx, if_neg hc, ih h]

/-- Fixed-width decimal rendering, `k` digits, zero padded (`strftime`
renders every numeric field this way; `%f` is the `k = 6` case). -/
def fixDigits : Nat → Nat → List Char
  | 0, _ => []
  | k + 1, n => fixDigits k (n / 10) ++ [Char.ofNat (48 + n % 10)]

theorem fixDigits_length (k n : Nat) : (fixDigits k n).length = k := by
  induction k generalizing n with
  | zero => rfl
  | succ k ih => simp [fixDigits, ih]

theorem fixDigits_six_split (n : Nat) :
    fixDigits 6 n = fixDigits 3 (n / 1000) ++
      [Char.ofNat (48 + n / 100 % 10), Char.ofNat (48 + n / 10 % 10),
       Char.ofNat (48 + n % 10)] := by
  have e1 : n / 10 / 10 = n / 100 := by
    rw [Nat.div_div_eq_div_mul]
  have e2 : n / 100 / 10 = n / 1000 := by
    rw [Nat.div_div_eq_div_mul]
  calc fixDigits 6 n
      = ((fixDigits 3 (n / 10 / 10 / 10) ++ [Char.ofNat (48 + n / 10 / 10 % 10)])
          ++ [Char.ofNat (48 + n / 10 % 10)]) ++ [Char.ofNat (48 + n % 10)] := rfl
    _ = fixDigits 3 (n / 1000) ++
        [Char.ofNat (48 + n / 100 % 10), Char.ofNat (48 + n / 10 % 10),
         Char.ofNat (48 + n % 10)] := by
        rw [e1, e2]
        simp [List.append_assoc]

/-- Embedding of the Python slice `s[:-3]`. -/
def pyDropLast3 (l : List Char) : List Char :=
  l.take (l.length - 3)

theorem take_len_append (l m : List Char) : (l ++ m).take l.length = l := by
  induction l with
  | nil => simp
  | cons a l ih => simp [ih]

theorem pyDropLast3_append3 (l : List Char) (a b c : Char) :
    pyDropLast3 (l ++ [a, b, c]) = l := by
  have hl : (l ++ [a, b, c]).length - 3 = l.length := by simp
  rw [pyDropLast3, hl, take_len_append]

/-! Constants of the source module. -/

/-- Endpoint constant `BASE_URL` of the source module. -/
def BASE_URL : String := "https://data.cityofnewyork.us/resource/erm2-nwe9.json"

/-- Row-limit constant `DEFAULT_LIMIT` of the source module. -/
def DEFAULT_LIMIT : Nat := 50000

/-- Constant `NYC_TIMEZONE = pytz.timezone("America/New_York")`, as a tag. -/
def NYC_TIMEZONE : Tz := Tz.nyc

/-! Calendar arithmetic used by the embedding of `strftime` and of
timestamp-string parsing.  `Int.ediv`/`Int.emod` have a nonnegative
remainder for positive divisors, which matches Python floor
division/modulo on the divisors used here. -/

/-- Gregorian date of a day count relative to 1970-01-01 (the standard
civil-from-days algorithm): year, month, day. -/
def civilFromDays (z0 : Int) : Int × Nat × Nat :=
  let z := z0 + 719468
  let era := Int.ediv z 146097
  let doe := (z - era * 146097).toNat
  let yoe := (doe - doe / 1460 + doe / 36524 - doe / 146096) / 365
  let doy := doe - (365 * yoe + yoe / 4 - yoe / 100)
  let mp := (5 * doy + 2) / 153
  let d := doy - (153 * mp + 2) / 5 + 1
  let m := if mp < 10 then mp + 3 else mp - 9
  ((yoe : Int) + era * 400 + (if m ≤ 2 then 1 else 0), m, d)

/-- Day count relative to 1970-01-01 of a Gregorian date (inverse of
`civilFromDays`). -/
def daysFromCivil (y0 : Int) (m d : Nat) : Int :=
  let y := if m ≤ 2 then y0 - 1 else y0
  let era := Int.ediv y 400
  let yoe := (y - era * 400).toNat
  let doy := (153 * (if 2 < m then m - 3 else m + 9) + 2) / 5 + d - 1
  let doe := yoe * 365 + yoe / 4 - yoe / 100 + doy
  era * 146097 + (doe : Int) - 719468

/-- The date part `%Y-%m-%d` of `strftime`, from a second count. -/
def renderDate (secs : Int) : List Char :=
  let c := civilFromDays (Int.ediv secs 86400)
  fixDigits 4 c.1.toNat ++ '-' :: (fixDigits 2 c.2.1 ++ '-' :: fixDigits 2 c.2.2)

/-- The time part `%H:%M:%S` of `strftime`, from a second count. -/
def renderTime (secs : Int) : List Char :=
  let sod := (Int.emod secs 86400).toNat
  fixDigits 2 (sod / 3600) ++ ':' :: (fixDigits 2 (sod / 60 % 60) ++ ':' :: fixDigits 2 (sod % 60))

/-- Embedding of `strftime('%Y-%m-%dT%H:%M:%S.%f')` on a UTC instant in
microseconds: date, `T`, time, dot, the six-digit microsecond field. -/
def strftimeIsoMicro (micros : Int) : List Char :=
  renderDate (Int.ediv micros 1000000) ++
    'T' :: (renderTime (Int.ediv micros 1000000) ++
      '.' :: fixDigits 6 (Int.emod micros 1000000).toNat)

/-- Embedding of `strftime('%Y-%m-%d %H:%M:%S')` on a wall-clock instant in
microseconds (used by the window-start progress message). -/
def renderYmdHmsSpace (micros : Int) : List Char :=
  renderDate (Int.ediv micros 1000000) ++ ' ' :: renderTime (Int.ediv micros 1000000)

/-- Modelled from the spec: "a UTC ISO-8601 string truncated to millisecond
precision (no trailing microsecond or timezone-offset suffix)" — date, `T`,
time, dot, exactly the three millisecond digits, and nothing after them. -/
def isoMillisecondRender (micros : Int) : List Char :=
  renderDate (Int.ediv micros 1000000) ++
    'T' :: (renderTime (Int.ediv micros 1000000) ++
      '.' :: fixDigits 3 ((Int.emod micros 1000000).toNat / 1000))

/-- Embedding of `dt.astimezone(pytz.utc)`: same instant, UTC tag. -/
def astimezoneUtc (d : Datetime) : Datetime :=
  { instant := d.instant, tz := Tz.utc }

/-- Embedding of `get_time_window` (lines 11-17).  The wall-clock `now`
observed by `datetime.now(NYC_TIMEZONE)` during the call is passed in as
the instant `now`.  `timedelta(hours=hours)` is `hours * 3600 * 10^6`
microseconds; subtracting it from an aware datetime shifts the absolute
instant by exactly that amount and keeps the timezone tag. -/
def get_time_window (now : Int) (hours : Int) : Datetime × Datetime × List Char :=
  let now_nyc : Datetime := { instant := now, tz := NYC_TIMEZONE }
  let start_nyc : Datetime := { instant := now_nyc.instant - hours * 3600 * 1000000, tz := now_nyc.tz }
  let start_utc := astimezoneUtc start_nyc
  let start_iso := pyDropLast3 (strftimeIsoMicro start_utc.instant)
  (start_nyc, start_utc, start_iso)

theorem strftimeIsoMicro_split (micros : Int) :
    strftimeIsoMicro micros =
      isoMillisecondRender micros ++
        [Char.ofNat (48 + (Int.emod micros 1000000).toNat / 100 % 10),
         Char.ofNat (48 + (Int.emod micros 1000000).toNat / 10 % 10),
         Char.ofNat (48 + (Int.emod micros 1000000).toNat % 10)] := by
  rw [strftimeIsoMicro, isoMillisecondRender, fixDigits_six_split]
  simp [List.append_assoc]

theorem get_time_window_iso (now hours : Int) :
    (get_time_window now hours).2.2 =
      isoMillisecondRender (get_time_window now hours).2.1.instant := by
  show pyDropLast3 (strftimeIsoMicro (now - hours * 3600 * 1000000)) = _
  rw [strftimeIsoMicro_split, pyDropLast3_append3]
  rfl

theorem isoMillisecondRender_length (micros : Int) :
    (isoMillisecondRender micros).length = 23 := by
  simp [isoMillisecondRender, renderDate, renderTime, fixDigits_length]

/-! Timestamp parsing.  `pd.to_datetime(col, errors="coerce", utc=True)`
parses the ISO timestamp strings delivered by the 311 endpoint
(`YYYY-MM-DDTHH:MM:SS.mmm`, optionally without the fractional part) into
UTC-aware instants and coerces anything unparseable to `NaT`.  The
embedding parses exactly that ISO family and returns `none` (the `NaT`
marker) for everything else. -/

/-- Numeric value of a decimal digit character, `none` otherwise. -/
def digitVal (c : Char) : Option Nat :=
  if '0' ≤ c ∧ c ≤ '9' then some (c.toNat - 48) else none

/-- Two-digit field. -/
def num2 (a b : Char) : Option Nat := do
  let x ← digitVal a
  let y ← digitVal b
  pure (10 * x + y)

/-- Three-digit field. -/
def num3 (a b c : Char) : Option Nat := do
  let x ← digitVal a
  let y ← digitVal b
  let z ← digitVal c
  pure (100 * x + 10 * y + z)

/-- Four-digit field. -/
def num4 (a b c d : Char) : Option Nat := do
  let x ← digitVal a
  let y ← digitVal b
  let z ← digitVal c
  let w ← digitVal d
  pure (1000 * x + 100 * y + 10 * z + w)

/-- Gregorian leap-year test. -/
def isLeap (y : Int) : Bool :=
  (Int.emod y 4 = 0 ∧ Int.emod y 100 ≠ 0) ∨ Int.emod y 400 = 0

/-- Number of days in a month. -/
def daysInMonth (y : Int) (m : Nat) : Nat :=
  if m = 2 then (if isLeap y then 29 else 28)
  else if m = 4 ∨ m = 6 ∨ m = 9 ∨ m = 11 then 30 else 31

/-- Instant (microseconds since epoch, UTC) of validated calendar fields;
`none` when the fields do not form a real timestamp. -/
def mkInstant (y : Int) (mo d h mi s f : Nat) : Option Int :=
  if 1 ≤ mo ∧ mo ≤ 12 ∧ 1 ≤ d ∧ d ≤ daysInMonth y mo ∧ h < 24 ∧ mi < 60 ∧ s < 60 then
    some ((daysFromCivil y mo d * 86400 + ((h * 3600 + mi * 60 + s : Nat) : Int)) * 1000000 + (f : Int))
  else none

/-- Parse an ISO timestamp character list, with or without a
three-digit fractional part; `none` for anything unparseable. -/
def parseIsoChars : List Char → Option Int
  | [y1, y2, y3, y4, '-', a1, a2, '-', b1, b2, 'T',
     h1, h2, ':', m1, m2, ':', s1, s2, '.', f1, f2, f3] => do
      let y ← num4 y1 y2 y3 y4
      let mo ← num2 a1 a2
      let d ← num2 b1 b2
      let h ← num2 h1 h2
      let mi ← num2 m1 m2
      let s ← num2 s1 s2
      let f ← num3 f1 f2 f3
      mkInstant (y : Int) mo d h mi s (f * 1000)
  | [y1, y2, y3, y4, '-', a1, a2, '-', b1, b2, 'T',
     h1, h2, ':', m1, m2, ':', s1, s2] => do
      let y ← num4 y1 y2 y3 y4
      let mo ← num2 a1 a2
      let d ← num2 b1 b2
      let h ← num2 h1 h2
      let mi ← num2 m1 m2
      let s ← num2 s1 s2
      mkInstant (y : Int) mo d h mi s 0
  | _ => none

/-- Parse an ISO timestamp string. -/
def parseIso (s : String) : Option Int :=
  parseIsoChars s.data

/-- Failure modes of the pipeline: a network/transport failure inside
`requests.get`, a `raise_for_status` error for a non-success HTTP status,
a pandas `KeyError` on a missing column, and a filesystem error from
`DataFrame.to_csv`. -/
inductive RunErr where
  | netFailure : RunErr
  | httpStatus : Nat → RunErr
  | keyError : RunErr
  | ioError : RunErr
deriving DecidableEq, Repr

/-! Embedding of `clean_and_filter` (lines 33-40). -/

/-- Per-cell effect of `pd.to_datetime(_, errors="coerce", utc=True)`:
strings are parsed (unparseable ones coerced to `NaT`), missing values
become `NaT`, already-parsed timestamps are converted to UTC. -/
def toDatetimeUtc : CellVal → CellVal
  | CellVal.str s => CellVal.dt (parseIso s) Tz.utc
  | CellVal.na => CellVal.dt none Tz.utc
  | CellVal.dt t _ => CellVal.dt t Tz.utc

/-- Pandas comparison of a cell against a timezone-aware datetime, as used
by the boolean mask `df["created_date"] >= start_time_utc`: instants are
compared absolutely, and `NaT` compares false. -/
def cellGE (c : CellVal) (start : Datetime) : Bool :=
  match c with
  | CellVal.dt (some t) _ => decide (start.instant ≤ t)
  | _ => false

/-- Per-cell effect of `.dt.tz_convert(NYC_TIMEZONE)`: same instant,
origin-timezone tag (`NaT` stays `NaT`). -/
def tzConvertNyc : CellVal → CellVal
  | CellVal.dt t _ => CellVal.dt t NYC_TIMEZONE
  | c => c

/-- Line 37: `df["created_date"] = pd.to_datetime(df["created_date"],
errors="coerce", utc=True)` — in-place parse of the column; `KeyError`
when the column is absent. -/
def parseCol (df : DataFrame) : Except RunErr DataFrame :=
  match findColIdx "created_date" df.cols with
  | none => Except.error RunErr.keyError
  | some i =>
      Except.ok { cols := df.cols,
                  rows := df.rows.map (fun r => r.set i (toDatetimeUtc (cellAt r i))) }

/-- Line 38: `df = df[df["created_date"] >= start_time_utc]` — boolean-mask
row filter; indexing with a mask builds a new frame. -/
def filterRows (df : DataFrame) (start : Datetime) : Except RunErr DataFrame :=
  match findColIdx "created_date" df.cols with
  | none => Except.error RunErr.keyError
  | some i =>
      Except.ok { cols := df.cols,
                  rows := df.rows.filter (fun r => cellGE (cellAt r i) start) }

/-- Line 39: `df["created_date_nyc"] = df["created_date"].dt.tz_convert(
NYC_TIMEZONE)` — add (or overwrite) the derived origin-timezone column. -/
def addNycCol (df : DataFrame) : Except RunErr DataFrame :=
  match findColIdx "created_date" df.cols with
  | none => Except.error RunErr.keyError
  | some i =>
      match findColIdx "created_date_nyc" df.cols with
      | some j =>
          Except.ok { cols := df.cols,
                      rows := df.rows.map (fun r => r.set j (tzConvertNyc (cellAt r i))) }
      | none =>
          Except.ok { cols := df.cols ++ ["created_date_nyc"],
                      rows := df.rows.map (fun r => r ++ [tzConvertNyc (cellAt r i)]) }

/-- Embedding of `clean_and_filter`.  The first component of the result is
the final state of the frame object the caller passed in (the parse of
line 37 is the only transformation applied to it in place; the mask of
line 38 rebinds the local name to a fresh frame, and line 39 adds the
column on that fresh frame); the second component is the returned frame. -/
def clean_and_filter (df : DataFrame) (start_time_utc : Datetime) :
    Except RunErr (DataFrame × DataFrame) :=
  if df.empty then Except.ok (df, df)
  else
    match parseCol df with
    | Except.error e => Except.error e
    | Except.ok df1 =>
        match filterRows df1 start_time_utc with
        | Except.error e => Except.error e
        | Except.ok df2 =>
            match addNycCol df2 with
            | Except.error e => Except.error e
            | Except.ok df3 => Except.ok (df1, df3)

/-! Embedding of `fetch_311_data` (lines 20-30). -/

/-- An HTTP response: status code and the parsed JSON body as a table
(`pd.DataFrame(response.json())`). -/
structure HttpResp where
  status : Nat
  body : DataFrame
deriving Repr

/-- An outbound HTTP GET: target URL and query parameters in order. -/
structure Request where
  url : String
  params : List (String × List Char)
deriving DecidableEq, Repr

/-- The single-quote character (used by the `$where` filter clause around
the interpolated timestamp). -/
def quoteChar : Char := Char.ofNat 39

/-- The `$where` value: `created_date >= ` followed by the timestamp
wrapped in single quotes, as built by the f-string on line 24. -/
def whereClause (since_iso : List Char) : List Char :=
  "created_date >= ".data ++ quoteChar :: (since_iso ++ [quoteChar])

/-- The one request `fetch_311_data` issues: the fixed endpoint with the
three query parameters of lines 22-26 (row limit, filter clause,
descending sort by `created_date`). -/
def fetch_request (since_iso : List Char) (limit : Nat) : Request :=
  { url := BASE_URL,
    params := [("$limit", (toString limit).data),
               ("$where", whereClause since_iso),
               ("$order", "created_date DESC".data)] }

/-- Embedding of `fetch_311_data`.  The HTTP world `http` maps a request to
its response (`none` models a network/transport failure raised by
`requests.get`).  The first component is the trace of requests issued —
always exactly the one request.  `raise_for_status` raises for status
codes at or above 400 and is silent below. -/
def fetch_311_data (since_iso : List Char) (limit : Nat)
    (http : Request → Option HttpResp) :
    List Request × Except RunErr DataFrame :=
  ([fetch_request since_iso limit],
   match http (fetch_request since_iso limit) with
   | none => Except.error RunErr.netFailure
   | some resp =>
       if 400 ≤ resp.status then Except.error (RunErr.httpStatus resp.status)
       else Except.ok resp.body)

/-! Embedding of `save_to_csv` (lines 43-46) and the orchestrator
`fetch_and_save_311_rolling` (lines 49-65). -/

/-- Python truthiness of the optional `filename` argument (`None` and the
empty string are both falsy). -/
def truthy : Option String → Bool
  | none => false
  | some s => !s.isEmpty

/-- Console output, one constructor per `print` in the source: the fetch
banner, the window-start line, the record count, and the save
confirmation. -/
inductive Msg where
  | fetching : Int → Msg
  | windowStart : List Char → Msg
  | retrieved : Nat → Msg
  | saved : String → Msg
deriving DecidableEq, Repr

/-- Embedding of `save_to_csv`: when the filesystem write succeeds it
records the written file and the confirmation message, otherwise the
filesystem error propagates. -/
def save_to_csv (df : DataFrame) (filename : String) (fsOk : Bool) :
    Except RunErr (List (String × DataFrame) × List Msg) :=
  if fsOk then Except.ok ([(filename, df)], [Msg.saved filename])
  else Except.error RunErr.ioError

/-- The `if filename: save_to_csv(...)` step of lines 62-63. -/
def saveStep (df : DataFrame) (filename : Option String) (fsOk : Bool) :
    Except RunErr (List (String × DataFrame) × List Msg) :=
  if truthy filename then save_to_csv df (filename.getD "") fsOk
  else Except.ok ([], [])

/-- The external world of one orchestration run: the wall-clock instant
observed by `datetime.now`, the UTC offset (in seconds) the pytz timezone
table gives `America/New_York` at the window start, the HTTP world, and
whether the filesystem write succeeds. -/
structure World where
  now : Int
  nycOffset : Int
  http : Request → Option HttpResp
  fsOk : Bool

/-- Wall-clock microsecond count of an aware datetime in its own timezone
(what `strftime` renders). -/
def localWallClock (d : Datetime) (nycOffset : Int) : Int :=
  match d.tz with
  | Tz.utc => d.instant
  | Tz.nyc => d.instant + nycOffset * 1000000

/-- Observable outcome of a successful orchestration run: the returned
table, the HTTP requests issued, the files written, and the console
output in order. -/
structure RunResult where
  table : DataFrame
  requests : List Request
  writes : List (String × DataFrame)
  console : List Msg
deriving DecidableEq, Repr

/-- Embedding of `fetch_and_save_311_rolling`: window computation, fetch,
clean, optional save, strictly in sequence, with every step's exception
propagating to the caller. -/
def fetch_and_save_311_rolling (w : World) (hours : Int) (filename : Option String) :
    Except RunErr RunResult :=
  match (fetch_311_data (get_time_window w.now hours).2.2 DEFAULT_LIMIT w.http).2 with
  | Except.error e => Except.error e
  | Except.ok df_raw =>
      match clean_and_filter df_raw (get_time_window w.now hours).2.1 with
      | Except.error e => Except.error e
      | Except.ok cleaned =>
          match saveStep cleaned.2 filename w.fsOk with
          | Except.error e => Except.error e
          | Except.ok save_out =>
              Except.ok
                { table := cleaned.2,
                  requests := (fetch_311_data (get_time_window w.now hours).2.2 DEFAULT_LIMIT w.http).1,
                  writes := save_out.1,
                  console := [Msg.fetching hours,
                              Msg.windowStart (renderYmdHmsSpace
                                (localWallClock (get_time_window w.now hours).1 w.nycOffset)),
                              Msg.retrieved cleaned.2.rows.length] ++ save_out.2 }

/-! Structural lemmas about `clean_and_filter`. -/

/-- Row transformation performed by line 37 at column position `i`. -/
def parsedRow (i : Nat) (r : List CellVal) : List CellVal :=
  r.set i (toDatetimeUtc (cellAt r i))

/-- Row predicate of the boolean mask of line 38 at column position `i`. -/
def keepRow (start : Datetime) (i : Nat) (r : List CellVal) : Bool :=
  cellGE (cellAt r i) start

/-- Derived origin-timezone cell of line 39 at column position `i`. -/
def nycCell (i : Nat) (r : List CellVal) : CellVal :=
  tzConvertNyc (cellAt r i)

theorem toDatetimeUtc_shape (c : CellVal) :
    ∃ t, toDatetimeUtc c = CellVal.dt t Tz.utc := by
  cases c <;> exact ⟨_, rfl⟩

theorem cellGE_eq_true (c : CellVal) (start : Datetime)
    (h : cellGE c start = true) :
    ∃ tz u, c = CellVal.dt (some u) tz ∧ start.instant ≤ u := by
  match c, h with
  | CellVal.dt (some t) tz, h =>
      exact ⟨tz, t, rfl, by simpa [cellGE] using h⟩

theorem keep_parsed_cell (start : Datetime) (i : Nat) (r : List CellVal)
    (h : keepRow start i (parsedRow i r) = true) :
    ∃ t, cellAt (parsedRow i r) i = CellVal.dt (some t) Tz.utc ∧
      start.instant ≤ t ∧ i < (parsedRow i r).length := by
  by_cases hlen : i < r.length
  · have hcell : cellAt (parsedRow i r) i = toDatetimeUtc (cellAt r i) :=
      cellAt_set_self r i _ hlen
    obtain ⟨t0, ht0⟩ := toDatetimeUtc_shape (cellAt r i)
    rw [keepRow, hcell, ht0] at h
    obtain ⟨tz, u, hu, hle⟩ := cellGE_eq_true _ _ h
    cases hu
    refine ⟨u, ?_, hle, ?_⟩
    · rw [hcell, ht0]
    · simpa [parsedRow, List.length_set] using hlen
  · exfalso
    have hset : parsedRow i r = r := set_of_len_le r i _ (Nat.le_of_not_lt hlen)
    rw [keepRow, hset, cellAt_of_len_le r i (Nat.le_of_not_lt hlen)] at h
    simp [cellGE] at h

theorem parseCol_none (df : DataFrame)
    (hi : findColIdx "created_date" df.cols = none) :
    parseCol df = Except.error RunErr.keyError := by
  simp only [parseCol]
  rw [hi]

theorem parseCol_some (df : DataFrame) (i : Nat)
    (hi : findColIdx "created_date" df.cols = some i) :
    parseCol df = Except.ok { cols := df.cols, rows := df.rows.map (parsedRow i) } := by
  simp only [parseCol]
  rw [hi]
  rfl

theorem filterRows_some (df : DataFrame) (start : Datetime) (i : Nat)
    (hi : findColIdx "created_date" df.cols = some i) :
    filterRows df start =
      Except.ok { cols := df.cols, rows := df.rows.filter (keepRow start i) } := by
  simp only [filterRows]
  rw [hi]
  rfl

theorem addNycCol_over (df : DataFrame) (i j : Nat)
    (hi : findColIdx "created_date" df.cols = some i)
    (hj : findColIdx "created_date_nyc" df.cols = some j) :
    addNycCol df =
      Except.ok { cols := df.cols, rows := df.rows.map (fun r => r.set j (nycCell i r)) } := by
  simp only [addNycCol]
  rw [hi, hj]
  rfl

theorem addNycCol_app (df : DataFrame) (i : Nat)
    (hi : findColIdx "created_date" df.cols = some i)
    (hj : findColIdx "created_date_nyc" df.cols = none) :
    addNycCol df =
      Except.ok { cols := df.cols ++ ["created_date_nyc"],
                  rows := df.rows.map (fun r => r ++ [nycCell i r]) } := by
  simp only [addNycCol]
  rw [hi, hj]
  rfl

/-- Success cases of `clean_and_filter`: either the empty short-circuit, or
the parse/filter/enrich pipeline, the last step splitting on whether the
derived column name already exists. -/
theorem clean_ok_elim (df : DataFrame) (start : Datetime)
    (out : DataFrame × DataFrame)
    (h : clean_and_filter df start = Except.ok out) :
    (df.empty = true ∧ out = (df, df)) ∨
    (df.empty = false ∧ ∃ i, findColIdx "created_date" df.cols = some i ∧
      out.1 = { cols := df.cols, rows := df.rows.map (parsedRow i) } ∧
      ((∃ j, findColIdx "created_date_nyc" df.cols = some j ∧
          out.2 = { cols := df.cols,
                    rows := ((df.rows.map (parsedRow i)).filter (keepRow start i)).map
                      (fun r => r.set j (nycCell i r)) }) ∨
        (findColIdx "created_date_nyc" df.cols = none ∧
          out.2 = { cols := df.cols ++ ["created_date_nyc"],
                    rows := ((df.rows.map (parsedRow i)).filter (keepRow start i)).map
                      (fun r => r ++ [nycCell i r]) }))) := by
  by_cases hemp : df.empty = true
  · left
    refine ⟨hemp, ?_⟩
    rw [clean_and_filter, if_pos hemp] at h
    exact (Except.ok.inj h).symm
  · right
    refine ⟨Bool.eq_false_iff.mpr (fun hh => hemp hh), ?_⟩
    rw [clean_and_filter, if_neg hemp] at h
    split at h
    · cases h
    · rename_i df1 hp
      split at h
      · cases h
      · rename_i df2 hf
        split at h
        · cases h
        · rename_i df3 ha
          cases hi : findColIdx "created_date" df.cols with
          | none => rw [parseCol_none df hi] at hp; cases hp
          | some i =>
              rw [parseCol_some df i hi] at hp
              cases hp
              have hi1 : findColIdx "created_date"
                  (DataFrame.mk df.cols (df.rows.map (parsedRow i))).cols = some i := hi
              rw [filterRows_some _ start i hi1] at hf
              cases hf
              refine ⟨i, rfl, ?_⟩
              cases hj : findColIdx "created_date_nyc" df.cols with
              | some j =>
                  have hi2 : findColIdx "created_date"
                      (DataFrame.mk df.cols
                        ((df.rows.map (parsedRow i)).filter (keepRow start i))).cols = some i := hi
                  have hj2 : findColIdx "created_date_nyc"
                      (DataFrame.mk df.cols
                        ((df.rows.map (parsedRow i)).filter (keepRow start i))).cols = some j := hj
                  rw [addNycCol_over _ i j hi2 hj2] at ha
                  cases ha
                  cases h
                  exact ⟨rfl, Or.inl ⟨j, rfl, rfl⟩⟩
              | none =>
                  have hi2 : findColIdx "created_date"
                      (DataFrame.mk df.cols
                        ((df.rows.map (parsedRow i)).filter (keepRow start i))).cols = some i := hi
                  have hj2 : findColIdx "created_date_nyc"
                      (DataFrame.mk df.cols
                        ((df.rows.map (parsedRow i)).filter (keepRow start i))).cols = none := hj
                  rw [addNycCol_app _ i hi2 hj2] at ha
                  cases ha
                  cases h
                  exact ⟨rfl, Or.inr ⟨rfl, rfl⟩⟩

theorem created_ne_nyc_idx (cols : List String) (i j : Nat)
    (hi : findColIdx "created_date" cols = some i)
    (hj : findColIdx "created_date_nyc" cols = some j) : i ≠ j := by
  intro heq
  have h1 := findColIdx_getD _ _ _ hi
  have h2 := findColIdx_getD _ _ _ hj
  rw [heq, h2] at h1
  exact absurd h1 (by decide)

/-- Every row of the frame returned by a successful `clean_and_filter` has,
at the `created_date` position, a non-null UTC timestamp at or after the
boundary. -/
theorem clean_ge_helper (df : DataFrame) (start : Datetime)
    (out : DataFrame × DataFrame) (h : clean_and_filter df start = Except.ok out) :
    ∀ r ∈ out.2.rows, ∀ i, findColIdx "created_date" out.2.cols = some i →
      ∃ t, cellAt r i = CellVal.dt (some t) Tz.utc ∧ start.instant ≤ t := by
  intro r hr i hi
  rcases clean_ok_elim df start out h with ⟨he, hout⟩ | ⟨hne, i0, hi0, h1, hcase⟩
  · subst hout
    have he2 : df.rows = [] ∨ df.cols = [] := by
      simpa [DataFrame.empty, List.isEmpty_iff] using he
    rcases he2 with h2 | h2
    · have hr' : r ∈ df.rows := hr
      rw [h2] at hr'
      simp at hr'
    · have hi' : findColIdx "created_date" df.cols = some i := hi
      rw [h2] at hi'
      simp [findColIdx] at hi'
  · rcases hcase with ⟨j, hj, hout2⟩ | ⟨hj, hout2⟩
    · have hr' : r ∈ ((df.rows.map (parsedRow i0)).filter (keepRow start i0)).map
          (fun r => r.set j (nycCell i0 r)) := by rw [hout2] at hr; exact hr
      obtain ⟨r2, hr2mem, rfl⟩ := List.mem_map.mp hr'
      obtain ⟨hr2map, hkeep⟩ := List.mem_filter.mp hr2mem
      obtain ⟨r0, hr0, rfl⟩ := List.mem_map.mp hr2map
      obtain ⟨t, hcell, hle, hlen⟩ := keep_parsed_cell start i0 r0 hkeep
      have hii : i = i0 := by
        have hcols : findColIdx "created_date" df.cols = some i := by
          rw [hout2] at hi; exact hi
        rw [hi0] at hcols
        exact (Option.some.inj hcols).symm
      subst hii
      refine ⟨t, ?_, hle⟩
      rw [cellAt_set_ne _ _ _ _ (created_ne_nyc_idx df.cols i j hi0 hj).symm]
      exact hcell
    · have hr' : r ∈ ((df.rows.map (parsedRow i0)).filter (keepRow start i0)).map
          (fun r => r ++ [nycCell i0 r]) := by rw [hout2] at hr; exact hr
      obtain ⟨r2, hr2mem, rfl⟩ := List.mem_map.mp hr'
      obtain ⟨hr2map, hkeep⟩ := List.mem_filter.mp hr2mem
      obtain ⟨r0, hr0, rfl⟩ := List.mem_map.mp hr2map
      obtain ⟨t, hcell, hle, hlen⟩ := keep_parsed_cell start i0 r0 hkeep
      have hii : i = i0 := by
        have hcols : findColIdx "created_date" (df.cols ++ ["created_date_nyc"]) = some i := by
          rw [hout2] at hi; exact hi
        rw [findColIdx_append_some "created_date" df.cols ["created_date_nyc"] i0 hi0] at hcols
        exact (Option.some.inj hcols).symm
      subst hii
      refine ⟨t, ?_, hle⟩
      rw [cellAt_append_left _ _ _ hlen]
      exact hcell

/-! Claim theorems. -/

/-- C1: every record of the table returned by `clean_and_filter` (and hence
of the final table returned by `fetch_and_save_311_rolling`) has a non-null
parsed `created_date` at or after the UTC boundary; rows with missing,
unparseable, or too-early `created_date` are absent from the output, never
coerced to a fallback timestamp. -/
theorem clean_created_date_ge_start :
    (∀ (df : DataFrame) (start : Datetime) (out : DataFrame × DataFrame),
      clean_and_filter df start = Except.ok out →
      ∀ r ∈ out.2.rows, ∀ i, findColIdx "created_date" out.2.cols = some i →
        ∃ t, cellAt r i = CellVal.dt (some t) Tz.utc ∧ start.instant ≤ t) ∧
    (∀ (w : World) (hours : Int) (fn : Option String) (res : RunResult),
      fetch_and_save_311_rolling w hours fn = Except.ok res →
      ∀ r ∈ res.table.rows, ∀ i, findColIdx "created_date" res.table.cols = some i →
        ∃ t, cellAt r i = CellVal.dt (some t) Tz.utc ∧
          (get_time_window w.now hours).2.1.instant ≤ t) := by
  constructor
  · exact clean_ge_helper
  · intro w hours fn res h r hr i hi
    simp only [fetch_and_save_311_rolling] at h
    split at h
    · cases h
    · rename_i df_raw hfetch
      split at h
      · cases h
      · rename_i cleaned hclean
        split at h
        · cases h
        · rename_i save_out hsave
          cases h
          exact clean_ge_helper df_raw _ cleaned hclean r hr i hi

theorem clean_created_date_ge_start_witness :
    ∃ t, cellAt [CellVal.dt (some 1000000) Tz.utc, CellVal.dt (some 1000000) Tz.nyc] 0 =
        CellVal.dt (some t) Tz.utc ∧ (Datetime.mk 0 Tz.utc).instant ≤ t :=
  clean_created_date_ge_start.1
    (DataFrame.mk ["created_date"]
      [[CellVal.str "1970-01-01T00:00:01.000"], [CellVal.str "not-a-date"]])
    (Datetime.mk 0 Tz.utc)
    (DataFrame.mk ["created_date"] [[CellVal.dt (some 1000000) Tz.utc], [CellVal.dt none Tz.utc]],
     DataFrame.mk ["created_date", "created_date_nyc"]
       [[CellVal.dt (some 1000000) Tz.utc, CellVal.dt (some 1000000) Tz.nyc]])
    rfl
    [CellVal.dt (some 1000000) Tz.utc, CellVal.dt (some 1000000) Tz.nyc]
    (by simp)
    0 rfl

/-- C3 is refuted at a concrete input: `clean_and_filter` does not leave the
caller's frame in the filtered, enriched state.  On a one-row frame whose
timestamp is unparseable, the caller's object ends up parsed but unfiltered
and without the derived column, while the returned frame is filtered and
enriched — the two differ. -/
theorem clean_inplace_cex :
    clean_and_filter (DataFrame.mk ["created_date"] [[CellVal.str "not-a-date"]])
        (Datetime.mk 0 Tz.utc) =
      Except.ok
        (DataFrame.mk ["created_date"] [[CellVal.dt none Tz.utc]],
         DataFrame.mk ["created_date", "created_date_nyc"] []) ∧
    DataFrame.mk ["created_date"] [[CellVal.dt none Tz.utc]] ≠
      DataFrame.mk ["created_date", "created_date_nyc"] [] :=
  ⟨rfl, by decide⟩

/-- C3 amended: only the column parse of line 37 happens in place on the
caller's frame; row filtering and column addition build a fresh frame, so
after the call the caller's object holds the parsed `created_date` column
but all original rows and no `created_date_nyc` column. -/
theorem clean_inplace_parse_only (df : DataFrame) (start : Datetime)
    (out : DataFrame × DataFrame) (h : clean_and_filter df start = Except.ok out)
    (hne : df.empty = false) :
    parseCol df = Except.ok out.1 ∧ out.1.cols = df.cols ∧
      out.1.rows.length = df.rows.length := by
  rcases clean_ok_elim df start out h with ⟨he, _⟩ | ⟨_, i, hi, h1, _⟩
  · rw [he] at hne; cases hne
  · refine ⟨?_, ?_, ?_⟩
    · rw [parseCol_some df i hi, h1]
    · rw [h1]
    · rw [h1]; simp

theorem clean_inplace_parse_only_witness :
    clean_and_filter (DataFrame.mk ["created_date"] [[CellVal.str "bad-date"]])
        (Datetime.mk 5 Tz.utc) =
      Except.ok
        (DataFrame.mk ["created_date"] [[CellVal.dt none Tz.utc]],
         DataFrame.mk ["created_date", "created_date_nyc"] []) ∧
    (DataFrame.mk ["created_date"] [[CellVal.str "bad-date"]]).empty = false ∧
    (parseCol (DataFrame.mk ["created_date"] [[CellVal.str "bad-date"]]) =
        Except.ok (DataFrame.mk ["created_date"] [[CellVal.dt none Tz.utc]]) ∧
      (DataFrame.mk ["created_date"] [[CellVal.dt none Tz.utc]]).cols = ["created_date"] ∧
      (DataFrame.mk ["created_date"] [[CellVal.dt none Tz.utc]]).rows.length = 1) :=
  ⟨rfl, rfl,
    clean_inplace_parse_only
      (DataFrame.mk ["created_date"] [[CellVal.str "bad-date"]])
      (Datetime.mk 5 Tz.utc)
      (DataFrame.mk ["created_date"] [[CellVal.dt none Tz.utc]],
       DataFrame.mk ["created_date", "created_date_nyc"] [])
      rfl rfl⟩

/-- C4: an empty input frame is returned unchanged by `clean_and_filter`,
without raising and without any column lookup — in particular the empty
frame may lack the `created_date` column entirely. -/
theorem clean_empty_short_circuit (df : DataFrame) (start : Datetime)
    (h : df.empty = true) :
    clean_and_filter df start = Except.ok (df, df) := by
  rw [clean_and_filter, if_pos h]

theorem clean_empty_short_circuit_witness :
    (DataFrame.mk ["unique_key"] []).empty = true ∧
    clean_and_filter (DataFrame.mk ["unique_key"] []) (Datetime.mk 0 Tz.utc) =
      Except.ok (DataFrame.mk ["unique_key"] [], DataFrame.mk ["unique_key"] []) :=
  ⟨rfl, clean_empty_short_circuit (DataFrame.mk ["unique_key"] []) (Datetime.mk 0 Tz.utc) rfl⟩

set_option linter.unusedVariables false in
/-- C5: for a positive lookback, the local boundary converted to UTC equals
the UTC boundary (they denote the same instant), and that instant is the
observed wall-clock `now` minus `hours` hours; the local boundary carries
the origin timezone and the UTC boundary carries UTC. -/
theorem time_window_aligned (now hours : Int) (hpos : 0 < hours) :
    astimezoneUtc (get_time_window now hours).1 = (get_time_window now hours).2.1 ∧
    (get_time_window now hours).1.instant = (get_time_window now hours).2.1.instant ∧
    (get_time_window now hours).2.1.instant = now - hours * 3600 * 1000000 ∧
    (get_time_window now hours).1.tz = NYC_TIMEZONE ∧
    (get_time_window now hours).2.1.tz = Tz.utc :=
  ⟨rfl, rfl, rfl, rfl, rfl⟩

theorem time_window_aligned_witness :
    (0 : Int) < 24 ∧
    (astimezoneUtc (get_time_window 0 24).1 = (get_time_window 0 24).2.1 ∧
      (get_time_window 0 24).1.instant = (get_time_window 0 24).2.1.instant ∧
      (get_time_window 0 24).2.1.instant = 0 - 24 * 3600 * 1000000 ∧
      (get_time_window 0 24).1.tz = NYC_TIMEZONE ∧
      (get_time_window 0 24).2.1.tz = Tz.utc) :=
  ⟨by decide, time_window_aligned 0 24 (by decide)⟩

/-- C6: the ISO string returned by `get_time_window` is the UTC boundary
rendered as an ISO-8601 timestamp truncated to exactly three fractional
digits (milliseconds), with nothing after them — no microsecond digits and
no timezone-offset suffix — and has exactly the 23 characters of that
shape. -/
theorem time_window_iso_millis (now hours : Int) :
    (get_time_window now hours).2.2 =
      isoMillisecondRender (get_time_window now hours).2.1.instant ∧
    (get_time_window now hours).2.2.length = 23 := by
  refine ⟨get_time_window_iso now hours, ?_⟩
  rw [get_time_window_iso]
  exact isoMillisecondRender_length _

/-- C7: in the cleaned table every surviving record holds the same instant
in `created_date` (UTC-aware) and in the derived `created_date_nyc`
(origin-timezone-aware) column. -/
theorem clean_nyc_same_instant (df : DataFrame) (start : Datetime)
    (out : DataFrame × DataFrame) (hrect : df.Rect)
    (h : clean_and_filter df start = Except.ok out) :
    ∀ r ∈ out.2.rows, ∀ i j,
      findColIdx "created_date" out.2.cols = some i →
      findColIdx "created_date_nyc" out.2.cols = some j →
      ∃ t, cellAt r i = CellVal.dt (some t) Tz.utc ∧
        cellAt r j = CellVal.dt (some t) Tz.nyc := by
  intro r hr i j hi hj
  rcases clean_ok_elim df start out h with ⟨he, hout⟩ | ⟨hne, i0, hi0, h1, hcase⟩
  · subst hout
    have he2 : df.rows = [] ∨ df.cols = [] := by
      simpa [DataFrame.empty, List.isEmpty_iff] using he
    rcases he2 with h2 | h2
    · have hr' : r ∈ df.rows := hr
      rw [h2] at hr'
      simp at hr'
    · have hi' : findColIdx "created_date" df.cols = some i := hi
      rw [h2] at hi'
      simp [findColIdx] at hi'
  · rcases hcase with ⟨j0, hj0, hout2⟩ | ⟨hj0, hout2⟩
    · have hr' : r ∈ ((df.rows.map (parsedRow i0)).filter (keepRow start i0)).map
          (fun r => r.set j0 (nycCell i0 r)) := by rw [hout2] at hr; exact hr
      obtain ⟨r2, hr2mem, rfl⟩ := List.mem_map.mp hr'
      obtain ⟨hr2map, hkeep⟩ := List.mem_filter.mp hr2mem
      obtain ⟨r0, hr0, rfl⟩ := List.mem_map.mp hr2map
      obtain ⟨t, hcell, hle, hlen⟩ := keep_parsed_cell start i0 r0 hkeep
      have hii : i = i0 := by
        have hcols : findColIdx "created_date" df.cols = some i := by
          rw [hout2] at hi; exact hi
        rw [hi0] at hcols
        exact (Option.some.inj hcols).symm
      have hjj : j = j0 := by
        have hcols : findColIdx "created_date_nyc" df.cols = some j := by
          rw [hout2] at hj; exact hj
        rw [hj0] at hcols
        exact (Option.some.inj hcols).symm
      subst hii
      subst hjj
      have hlen2 : (parsedRow i r0).length = df.cols.length := by
        rw [parsedRow, List.length_set]
        exact hrect r0 hr0
      have hjlt : j < (parsedRow i r0).length := by
        rw [hlen2]
        exact findColIdx_lt _ _ _ hj0
      refine ⟨t, ?_, ?_⟩
      · rw [cellAt_set_ne _ _ _ _ (created_ne_nyc_idx df.cols i j hi0 hj0).symm]
        exact hcell
      · rw [cellAt_set_self _ _ _ hjlt, nycCell, hcell]
        rfl
    · have hr' : r ∈ ((df.rows.map (parsedRow i0)).filter (keepRow start i0)).map
          (fun r => r ++ [nycCell i0 r]) := by rw [hout2] at hr; exact hr
      obtain ⟨r2, hr2mem, rfl⟩ := List.mem_map.mp hr'
      obtain ⟨hr2map, hkeep⟩ := List.mem_filter.mp hr2mem
      obtain ⟨r0, hr0, rfl⟩ := List.mem_map.mp hr2map
      obtain ⟨t, hcell, hle, hlen⟩ := keep_parsed_cell start i0 r0 hkeep
      have hii : i = i0 := by
        have hcols : findColIdx "created_date" (df.cols ++ ["created_date_nyc"]) = some i := by
          rw [hout2] at hi; exact hi
        rw [findColIdx_append_some "created_date" df.cols ["created_date_nyc"] i0 hi0] at hcols
        exact (Option.some.inj hcols).symm
      have hjj : j = df.cols.length := by
        have hcols : findColIdx "created_date_nyc" (df.cols ++ ["created_date_nyc"]) = some j := by
          rw [hout2] at hj; exact hj
        rw [findColIdx_append_none "created_date_nyc" df.cols hj0] at hcols
        exact (Option.some.inj hcols).symm
      subst hii
      subst hjj
      have hlen2 : (parsedRow i r0).length = df.cols.length := by
        rw [parsedRow, List.length_set]
        exact hrect r0 hr0
      refine ⟨t, ?_, ?_⟩
      · rw [cellAt_append_left _ _ _ hlen]
        exact hcell
      · rw [← hlen2, cellAt_append_self, nycCell, hcell]
        rfl

theorem clean_nyc_same_instant_witness :
    ∃ t, cellAt [CellVal.dt (some 1000000) Tz.utc, CellVal.dt (some 1000000) Tz.nyc] 0 =
        CellVal.dt (some t) Tz.utc ∧
      cellAt [CellVal.dt (some 1000000) Tz.utc, CellVal.dt (some 1000000) Tz.nyc] 1 =
        CellVal.dt (some t) Tz.nyc :=
  clean_nyc_same_instant
    (DataFrame.mk ["created_date"] [[CellVal.str "1970-01-01T00:00:01.000"]])
    (Datetime.mk 0 Tz.utc)
    (DataFrame.mk ["created_date"] [[CellVal.dt (some 1000000) Tz.utc]],
     DataFrame.mk ["created_date", "created_date_nyc"]
       [[CellVal.dt (some 1000000) Tz.utc, CellVal.dt (some 1000000) Tz.nyc]])
    (by decide) rfl
    [CellVal.dt (some 1000000) Tz.utc, CellVal.dt (some 1000000) Tz.nyc]
    (by simp) 0 1 rfl rfl

/-- C9: the rows of the cleaned table are a subsequence of the input rows
(no row is added, relative order is preserved), and each surviving row
keeps every original field value whose column is neither `created_date`
nor `created_date_nyc`. -/
theorem clean_rows_subsequence (df : DataFrame) (start : Datetime)
    (out : DataFrame × DataFrame) (h : clean_and_filter df start = Except.ok out) :
    ∃ kept, kept.Sublist df.rows ∧
      List.Forall₂ (fun r r2 => ∀ jj, jj < r.length →
        df.cols.getD jj "" ≠ "created_date" →
        df.cols.getD jj "" ≠ "created_date_nyc" →
        cellAt r2 jj = cellAt r jj) kept out.2.rows := by
  rcases clean_ok_elim df start out h with ⟨he, hout⟩ | ⟨hne, i0, hi0, h1, hcase⟩
  · subst hout
    exact ⟨df.rows, List.Sublist.refl _,
      List.forall₂_same.mpr (fun a _ jj _ _ _ => rfl)⟩
  · have hne_i : ∀ jj, df.cols.getD jj "" ≠ "created_date" → jj ≠ i0 := by
      intro jj hne1 heq
      exact hne1 (by rw [heq]; exact findColIdx_getD _ _ _ hi0)
    rcases hcase with ⟨j0, hj0, hout2⟩ | ⟨hj0, hout2⟩
    · refine ⟨df.rows.filter (keepRow start i0 ∘ parsedRow i0), List.filter_sublist _, ?_⟩
      have hrows : out.2.rows =
          (df.rows.filter (keepRow start i0 ∘ parsedRow i0)).map
            ((fun r => r.set j0 (nycCell i0 r)) ∘ parsedRow i0) := by
        rw [hout2]
        show ((df.rows.map (parsedRow i0)).filter (keepRow start i0)).map _ = _
        rw [List.filter_map, List.map_map]
      rw [hrows, List.forall₂_map_right_iff]
      refine List.forall₂_same.mpr ?_
      intro r0 hmem jj hjj hne1 hne2
      have hji : jj ≠ i0 := hne_i jj hne1
      have hjj0 : jj ≠ j0 := by
        intro heq
        exact hne2 (by rw [heq]; exact findColIdx_getD _ _ _ hj0)
      show cellAt ((parsedRow i0 r0).set j0 (nycCell i0 (parsedRow i0 r0))) jj = cellAt r0 jj
      rw [cellAt_set_ne _ _ _ _ (fun hh => hjj0 hh.symm),
        parsedRow, cellAt_set_ne _ _ _ _ (fun hh => hji hh.symm)]
    · refine ⟨df.rows.filter (keepRow start i0 ∘ parsedRow i0), List.filter_sublist _, ?_⟩
      have hrows : out.2.rows =
          (df.rows.filter (keepRow start i0 ∘ parsedRow i0)).map
            ((fun r => r ++ [nycCell i0 r]) ∘ parsedRow i0) := by
        rw [hout2]
        show ((df.rows.map (parsedRow i0)).filter (keepRow start i0)).map _ = _
        rw [List.filter_map, List.map_map]
      rw [hrows, List.forall₂_map_right_iff]
      refine List.forall₂_same.mpr ?_
      intro r0 hmem jj hjj hne1 hne2
      have hji : jj ≠ i0 := hne_i jj hne1
      have hjlt : jj < (parsedRow i0 r0).length := by
        rw [parsedRow, List.length_set]
        exact hjj
      show cellAt ((parsedRow i0 r0) ++ [nycCell i0 (parsedRow i0 r0)]) jj = cellAt r0 jj
      rw [cellAt_append_left _ _ _ hjlt,
        parsedRow, cellAt_set_ne _ _ _ _ (fun hh => hji hh.symm)]

theorem clean_rows_subsequence_witness :
    ∃ kept, kept.Sublist [[CellVal.str "k1", CellVal.str "1970-01-01T00:00:01.000"],
                          [CellVal.str "k2", CellVal.str "not-a-date"]] ∧
      List.Forall₂ (fun r r2 => ∀ jj, jj < r.length →
        (["unique_key", "created_date"] : List String).getD jj "" ≠ "created_date" →
        (["unique_key", "created_date"] : List String).getD jj "" ≠ "created_date_nyc" →
        cellAt r2 jj = cellAt r jj)
        kept
        [[CellVal.str "k1", CellVal.dt (some 1000000) Tz.utc,
          CellVal.dt (some 1000000) Tz.nyc]] :=
  clean_rows_subsequence
    (DataFrame.mk ["unique_key", "created_date"]
      [[CellVal.str "k1", CellVal.str "1970-01-01T00:00:01.000"],
       [CellVal.str "k2", CellVal.str "not-a-date"]])
    (Datetime.mk 0 Tz.utc)
    (DataFrame.mk ["unique_key", "created_date"]
      [[CellVal.str "k1", CellVal.dt (some 1000000) Tz.utc],
       [CellVal.str "k2", CellVal.dt none Tz.utc]],
     DataFrame.mk ["unique_key", "created_date", "created_date_nyc"]
      [[CellVal.str "k1", CellVal.dt (some 1000000) Tz.utc,
        CellVal.dt (some 1000000) Tz.nyc]])
    rfl

theorem fetch_snd (since : List Char) (limit : Nat)
    (http : Request → Option HttpResp) :
    (fetch_311_data since limit http).2 =
      match http (fetch_request since limit) with
      | none => Except.error RunErr.netFailure
      | some resp =>
          if 400 ≤ resp.status then Except.error (RunErr.httpStatus resp.status)
          else Except.ok resp.body := rfl

/-- C8: `fetch_311_data` issues exactly one GET, to the fixed endpoint,
with exactly the three query parameters (row limit, the filter clause
`created_date >= '<since>'`, descending sort by `created_date`), and it
propagates a network failure or any non-success HTTP status unchanged,
with no retry. -/
theorem fetch_single_request (since : List Char) (limit : Nat)
    (http : Request → Option HttpResp) :
    (fetch_311_data since limit http).1 = [fetch_request since limit] ∧
    fetch_request since limit =
      { url := BASE_URL,
        params := [("$limit", (toString limit).data),
                   ("$where", "created_date >= ".data ++ quoteChar :: (since ++ [quoteChar])),
                   ("$order", "created_date DESC".data)] } ∧
    (http (fetch_request since limit) = none →
      (fetch_311_data since limit http).2 = Except.error RunErr.netFailure) ∧
    (∀ resp, http (fetch_request since limit) = some resp →
      (400 ≤ resp.status →
        (fetch_311_data since limit http).2 = Except.error (RunErr.httpStatus resp.status)) ∧
      (resp.status < 400 →
        (fetch_311_data since limit http).2 = Except.ok resp.body)) := by
  refine ⟨rfl, rfl, ?_, ?_⟩
  · intro hn
    rw [fetch_snd, hn]
  · intro resp hr
    constructor
    · intro hs
      rw [fetch_snd, hr]
      exact if_pos hs
    · intro hs
      rw [fetch_snd, hr]
      exact if_neg (Nat.not_le.mpr hs)

theorem fetch_single_request_witness :
    (fun (_ : Request) => some (HttpResp.mk 404 (DataFrame.mk [] [])))
        (fetch_request "x".data 5) = some (HttpResp.mk 404 (DataFrame.mk [] [])) ∧
    400 ≤ 404 ∧
    (fetch_311_data "x".data 5
        (fun _ => some (HttpResp.mk 404 (DataFrame.mk [] [])))).2 =
      Except.error (RunErr.httpStatus 404) :=
  ⟨rfl, by decide,
    ((fetch_single_request "x".data 5
        (fun _ => some (HttpResp.mk 404 (DataFrame.mk [] [])))).2.2.2
      (HttpResp.mk 404 (DataFrame.mk [] [])) rfl).1 (by decide)⟩

/-- C2 is refuted at a concrete input: with a filename given, a reachable
save step, and a failing filesystem write, `fetch_and_save_311_rolling`
propagates the filesystem error — the cleaned table is not delivered to
the caller, contrary to the claim that it always is. -/
theorem rolling_save_failure_cex :
    fetch_and_save_311_rolling
      { now := 0, nycOffset := 0,
        http := fun _ => some (HttpResp.mk 200
          (DataFrame.mk ["created_date"] [[CellVal.str "1970-01-01T00:00:01.000"]])),
        fsOk := false }
      24 (some "out.csv") = Except.error RunErr.ioError := rfl

/-- C2 amended: the cleaned table is returned to the caller whenever no
save is attempted (falsy filename) or the save succeeds; when a save is
attempted and the filesystem write fails, the error propagates out of the
orchestration and no table is returned. -/
theorem rolling_returns_unless_save_fails (w : World) (hours : Int)
    (fn : Option String) (raw : DataFrame) (cc : DataFrame × DataFrame)
    (hf : (fetch_311_data (get_time_window w.now hours).2.2 DEFAULT_LIMIT w.http).2 =
      Except.ok raw)
    (hc : clean_and_filter raw (get_time_window w.now hours).2.1 = Except.ok cc) :
    ((truthy fn = false ∨ w.fsOk = true) →
      ∃ res, fetch_and_save_311_rolling w hours fn = Except.ok res ∧ res.table = cc.2) ∧
    (truthy fn = true → w.fsOk = false →
      fetch_and_save_311_rolling w hours fn = Except.error RunErr.ioError) := by
  constructor
  · intro hor
    have hs : ∃ ws ms, saveStep cc.2 fn w.fsOk = Except.ok (ws, ms) := by
      rcases hor with hfn | hfs
      · exact ⟨[], [], by simp [saveStep, hfn]⟩
      · by_cases hfn : truthy fn = true
        · exact ⟨[(fn.getD "", cc.2)], [Msg.saved (fn.getD "")],
            by simp [saveStep, hfn, save_to_csv, hfs]⟩
        · exact ⟨[], [], by simp [saveStep, hfn]⟩
    obtain ⟨ws, ms, hs⟩ := hs
    refine ⟨{ table := cc.2,
              requests := (fetch_311_data (get_time_window w.now hours).2.2
                DEFAULT_LIMIT w.http).1,
              writes := ws,
              console := [Msg.fetching hours,
                          Msg.windowStart (renderYmdHmsSpace
                            (localWallClock (get_time_window w.now hours).1 w.nycOffset)),
                          Msg.retrieved cc.2.rows.length] ++ ms }, ?_, rfl⟩
    simp only [fetch_and_save_311_rolling, hf, hc, hs]
  · intro hfn hfs
    have hs : saveStep cc.2 fn w.fsOk = Except.error RunErr.ioError := by
      simp [saveStep, hfn, save_to_csv, hfs]
    simp only [fetch_and_save_311_rolling, hf, hc, hs]

theorem rolling_returns_unless_save_fails_witness :
    ∃ res, fetch_and_save_311_rolling
        { now := 0, nycOffset := 0,
          http := fun _ => some (HttpResp.mk 200
            (DataFrame.mk ["created_date"] [[CellVal.str "1970-01-01T00:00:01.000"]])),
          fsOk := true }
        24 (some "out.csv") = Except.ok res ∧
      res.table = (DataFrame.mk ["created_date"] [[CellVal.dt (some 1000000) Tz.utc]],
        DataFrame.mk ["created_date", "created_date_nyc"]
          [[CellVal.dt (some 1000000) Tz.utc, CellVal.dt (some 1000000) Tz.nyc]]).2 :=
  (rolling_returns_unless_save_fails
    { now := 0, nycOffset := 0,
      http := fun _ => some (HttpResp.mk 200
        (DataFrame.mk ["created_date"] [[CellVal.str "1970-01-01T00:00:01.000"]])),
      fsOk := true }
    24 (some "out.csv")
    (DataFrame.mk ["created_date"] [[CellVal.str "1970-01-01T00:00:01.000"]])
    (DataFrame.mk ["created_date"] [[CellVal.dt (some 1000000) Tz.utc]],
     DataFrame.mk ["created_date", "created_date_nyc"]
       [[CellVal.dt (some 1000000) Tz.utc, CellVal.dt (some 1000000) Tz.nyc]])
    rfl rfl).1 (Or.inr rfl)

theorem saveStep_empty_eq (d : DataFrame) (o : Bool) :
    saveStep d (some "") o = saveStep d none o := rfl

/-- C10: passing the empty string as the filename behaves exactly like
passing no filename: the whole run has the same outcome, no file write is
recorded, and no save confirmation appears on the console — because the
save step is guarded by Python truthiness of the filename. -/
theorem empty_filename_no_save (w : World) (hours : Int) :
    fetch_and_save_311_rolling w hours (some "") =
      fetch_and_save_311_rolling w hours none ∧
    (∀ res, fetch_and_save_311_rolling w hours none = Except.ok res →
      res.writes = [] ∧ ∀ m ∈ res.console, ∀ s, m ≠ Msg.saved s) := by
  constructor
  · simp only [fetch_and_save_311_rolling, saveStep_empty_eq]
  · intro res h
    simp only [fetch_and_save_311_rolling] at h
    split at h
    · cases h
    · rename_i df_raw hfetch
      split at h
      · cases h
      · rename_i cleaned hclean
        split at h
        · cases h
        · rename_i save_out hsave
          have h0 : saveStep cleaned.2 none w.fsOk =
              Except.ok (([] : List (String × DataFrame)), ([] : List Msg)) := rfl
          rw [h0] at hsave
          obtain rfl : ([], ([] : List Msg)) = save_out := Except.ok.inj hsave
          cases h
          refine ⟨rfl, ?_⟩
          intro m hm s
          simp at hm
          rcases hm with rfl | rfl | rfl
          · intro hh; cases hh
          · intro hh; cases hh
          · intro hh; cases hh

theorem empty_filename_no_save_witness :
    (RunResult.mk
        (DataFrame.mk ["created_date", "created_date_nyc"]
          [[CellVal.dt (some 1000000) Tz.utc, CellVal.dt (some 1000000) Tz.nyc]])
        [fetch_request (get_time_window 0 24).2.2 DEFAULT_LIMIT]
        []
        [Msg.fetching 24,
         Msg.windowStart (renderYmdHmsSpace (localWallClock (get_time_window 0 24).1 0)),
         Msg.retrieved 1]).writes = [] ∧
    (∀ m ∈ (RunResult.mk
        (DataFrame.mk ["created_date", "created_date_nyc"]
          [[CellVal.dt (some 1000000) Tz.utc, CellVal.dt (some 1000000) Tz.nyc]])
        [fetch_request (get_time_window 0 24).2.2 DEFAULT_LIMIT]
        []
        [Msg.fetching 24,
         Msg.windowStart (renderYmdHmsSpace (localWallClock (get_time_window 0 24).1 0)),
         Msg.retrieved 1]).console, ∀ s, m ≠ Msg.saved s) :=
  (empty_filename_no_save
    { now := 0, nycOffset := 0,
      http := fun _ => some (HttpResp.mk 200
        (DataFrame.mk ["created_date"] [[CellVal.str "1970-01-01T00:00:01.000"]])),
      fsOk := true }
    24).2
    (RunResult.mk
      (DataFrame.mk ["created_date", "created_date_nyc"]
        [[CellVal.dt (some 1000000) Tz.utc, CellVal.dt (some 1000000) Tz.nyc]])
      [fetch_request (get_time_window 0 24).2.2 DEFAULT_LIMIT]
      []
      [Msg.fetching 24,
       Msg.windowStart (renderYmdHmsSpace (localWallClock (get_time_window 0 24).1 0)),
       Msg.retrieved 1])
    rfl

end Nyc311
